import Mathlib

/-!
Verification development for the SHTW1/SHTC1 temperature–humidity read-out
program (`testsystem.c`): a shallow embedding of its checksum validator,
unit conversions, dew-point computation, measurement transaction,
per-cycle sensor-table update, polling retry loop and configuration-file
parser, together with theorems settling the specified properties.

Modelling conventions:
  * C `uint8_t` / `uint16_t` / `uint32_t` arithmetic is `Nat` with explicit
    `% 256`, `% 65536`, `% 4294967296` at the points where C truncates.
  * C `float` values are modelled exactly: the two register conversions are
    `ℚ`-valued (their float evaluation is exact, all intermediates fit in a
    24-bit mantissa over a power-of-two denominator), and the dew-point
    formula, which uses `logf`, is modelled over `ℝ` with `Real.log`.
  * HID transport replies are the raw report byte vectors (`List Nat`,
    missing bytes read as the `memset` value 0); transport outcomes are
    inputs to the embedded functions.
  * out-parameter writes are modelled by state records threaded through the
    functions; a field the C code does not assign keeps its previous value.

The file lists all definitions first, then the theorems.
-/

set_option maxHeartbeats 1000000
set_option maxRecDepth 10000

/-! ## CRC8 validator (`VerifyChecksum`, testsystem.c lines 91–110) -/

-- CRC_POLYNOMIAL from testsystem.c line 33
def CRC_POLYNOMIAL : Nat := 0x131

/-- One shift step of the CRC loop body, exactly as the C computes it on a
`uint8_t` register: `if (crc & 0x80) crc = (crc << 1) ^ 0x131; else crc = crc << 1;`
(the assignment truncates to 8 bits). -/
def crcStep (crc : Nat) : Nat :=
  if crc &&& 0x80 ≠ 0 then ((crc <<< 1) ^^^ CRC_POLYNOMIAL) % 256
  else (crc <<< 1) % 256

/-- Per-byte body of the CRC loop: `crc ^= data[i]` (uint8 store) followed by
eight shift steps. -/
def crcByteStep (crc b : Nat) : Nat := crcStep^[8] ((crc ^^^ b) % 256)

/-- The checksum value computed inside `VerifyChecksum`: initial value 0xFF,
then the per-byte step over the span. -/
def crc8 (data : List Nat) : Nat := data.foldl crcByteStep 0xFF

/-- `VerifyChecksum(data, count, received)`: recompute the CRC over the span
and compare; returns -2 on mismatch, 0 on match. -/
def VerifyChecksum (data : List Nat) (received_checksum : Nat) : Int :=
  if crc8 data ≠ received_checksum then -2 else 0

/-- Modelled from the spec: one MSB-first, XOR-on-overflow shift step of the
reference CRC-8 algorithm with polynomial 0x131 — shift left; if a bit
overflows out of 8 bits, XOR the 9-bit value with the polynomial. -/
def crcStepSpec (crc : Nat) : Nat :=
  if 256 ≤ crc <<< 1 then (crc <<< 1) ^^^ 0x131 else crc <<< 1

/-- Modelled from the spec: reference CRC-8, initial value 0xFF, processed one
byte at a time (XOR the byte in, then 8 shift steps per byte). -/
def crc8_spec (data : List Nat) : Nat :=
  data.foldl (fun c b => crcStepSpec^[8] (c ^^^ b)) 0xFF

/-! ## Unit conversions (`ConvertTemperature` / `ConvertHumidity`,
testsystem.c lines 112–120) -/

/-- `ConvertTemperature`: `175 * (float)sensor_value / 65536 - 45`.  The float
evaluation is exact for the whole `uint16` domain, so the `ℚ` value is the
value the C program computes. -/
def ConvertTemperature (sensor_value : Nat) : ℚ :=
  175 * (sensor_value : ℚ) / 65536 - 45

/-- `ConvertHumidity`: `100 * (float)sensor_value / 65536`. -/
def ConvertHumidity (sensor_value : Nat) : ℚ :=
  100 * (sensor_value : ℚ) / 65536

/-! ## Dew point (testsystem.c lines 44–47 and 249–270) -/

-- Dew point calculation coefficients (testsystem.c lines 44–47)
def T_PLUS : ℝ := 243.12
def M_PLUS : ℝ := 17.62
def T_MINUS : ℝ := 272.62
def M_MINUS : ℝ := 22.46

/-- The dew-point formula as computed inside `GetMeasurements` once the guard
`humidity > 0.0` has passed: coefficient selection by `temperature > 0`, then
the SHT7x formula with `logf` modelled by `Real.log`. -/
noncomputable def dewPointCalc (T RH : ℚ) : ℝ :=
  let Tn : ℝ := if 0 < T then T_PLUS else T_MINUS
  let m : ℝ := if 0 < T then M_PLUS else M_MINUS
  Tn * (Real.log ((RH : ℝ) / 100) + m * (T : ℝ) / (Tn + (T : ℝ))) /
    (m - Real.log ((RH : ℝ) / 100) - m * (T : ℝ) / (Tn + (T : ℝ)))

/-- The dew-point fragment of `GetMeasurements` (lines 249–270) as a partial
value: the C writes `*dew_point` only under `if (*humidity > 0.0)`, so a
non-positive humidity leaves it undefined (`none`). -/
noncomputable def dew_point (temp rh : ℚ) : Option ℝ :=
  if 0 < rh then some (dewPointCalc temp rh) else none

/-- Modelled from the spec: `dew_point(temp_c, humidity_pct)` is none when
`humidity_pct <= 0`; otherwise it selects `(243.12, 17.62)` when `temp_c > 0`
and `(272.62, 22.46)` otherwise and computes
`T_coef * (ln(rh/100) + m*temp/(T_coef+temp)) / (m - ln(rh/100) - m*temp/(T_coef+temp))`. -/
noncomputable def dew_point_spec (temp rh : ℚ) : Option ℝ :=
  if rh ≤ 0 then none
  else
    let Tn : ℝ := if 0 < temp then 243.12 else 272.62
    let m : ℝ := if 0 < temp then 17.62 else 22.46
    some (Tn * (Real.log ((rh : ℝ) / 100) + m * (temp : ℝ) / (Tn + (temp : ℝ))) /
      (m - Real.log ((rh : ℝ) / 100) - m * (temp : ℝ) / (Tn + (temp : ℝ))))

/-! ## Measurement transaction (`GetMeasurements`, testsystem.c lines 213–276)

The embedding takes the transport outcome as input: `writeRes` is the value
returned by `WriteI2C(handle, MEASURE_T_RH_CLKSTR)` and `reply` is the raw
report returned by `ReadI2c(handle, 0x06)` (`Bytes[0]` is the ack/status
byte, `Bytes[1..6]` the six payload bytes; bytes beyond the list read as the
`memset` fill 0).  The three out-parameters are a state record; a field the
C does not assign keeps its value.  The event list records, in order, which
validation / conversion steps were executed. -/

structure MeasState where
  temperature : ℚ
  humidity : ℚ
  dew_point : ℝ

inductive MEvent where
  | tempCrc
  | tempConv
  | humCrc
  | humConv
  | dewCalc
  deriving DecidableEq

/-- `GetMeasurements`: write the measure command (full 3-byte ack required),
read 6 bytes, check the ack bit, verify the temperature CRC (`Bytes[1..2]`
against `Bytes[3]`), convert temperature, verify the humidity CRC
(`Bytes[4..5]` against `Bytes[6]`), convert humidity, and compute the dew
point only when the converted humidity is positive. -/
noncomputable def GetMeasurements (writeRes : Int) (reply : List Nat) (st : MeasState) :
    Int × MeasState × List MEvent :=
  if writeRes ≠ 3 then (-1, st, [])
  else if (reply.getD 0 0) &&& 0x80 ≠ 0 then (-1, st, [])
  else if VerifyChecksum [reply.getD 1 0, reply.getD 2 0] (reply.getD 3 0) ≠ 0 then
    (-2, st, [MEvent.tempCrc])
  else if VerifyChecksum [reply.getD 4 0, reply.getD 5 0] (reply.getD 6 0) ≠ 0 then
    (-3,
     { st with temperature :=
         ConvertTemperature ((((reply.getD 1 0) <<< 8) ||| reply.getD 2 0) % 65536) },
     [MEvent.tempCrc, MEvent.tempConv, MEvent.humCrc])
  else if (0 : ℚ) < ConvertHumidity ((((reply.getD 4 0) <<< 8) ||| reply.getD 5 0) % 65536) then
    (0,
     { st with
         temperature :=
           ConvertTemperature ((((reply.getD 1 0) <<< 8) ||| reply.getD 2 0) % 65536),
         humidity :=
           ConvertHumidity ((((reply.getD 4 0) <<< 8) ||| reply.getD 5 0) % 65536),
         dew_point :=
           dewPointCalc
             (ConvertTemperature ((((reply.getD 1 0) <<< 8) ||| reply.getD 2 0) % 65536))
             (ConvertHumidity ((((reply.getD 4 0) <<< 8) ||| reply.getD 5 0) % 65536)) },
     [MEvent.tempCrc, MEvent.tempConv, MEvent.humCrc, MEvent.humConv, MEvent.dewCalc])
  else
    (0,
     { st with
         temperature :=
           ConvertTemperature ((((reply.getD 1 0) <<< 8) ||| reply.getD 2 0) % 65536),
         humidity :=
           ConvertHumidity ((((reply.getD 4 0) <<< 8) ||| reply.getD 5 0) % 65536) },
     [MEvent.tempCrc, MEvent.tempConv, MEvent.humCrc, MEvent.humConv])

/-! ## Polling retry loop (`main`, testsystem.c lines 710–741)

The cited retry policy is the `while(infinite_loop_control)` loop (commented
out in the shipped source).  Its state is the single `uint8_t retry_counter`
shared by all sensors.  Each list element is one cycle's
`UpdateSensorsMeasurements` result: 0 resets the counter; any nonzero result
increments it (with uint8 wraparound); when the incremented counter reaches
`I2C_RETRY_LIMIT` the process prints a message and returns -1, modelled by
the `true` flag.  An exhausted list models the interrupt flag ending the
loop (`false`, final counter value). -/

-- I2C_RETRY_LIMIT from testsystem.c line 32
def I2C_RETRY_LIMIT : Nat := 5

def pollRun : Nat → List Int → Bool × Nat
  | r, [] => (false, r)
  | r, res :: rest =>
      if res = 0 then pollRun 0 rest
      else
        if I2C_RETRY_LIMIT ≤ (r + 1) % 256 then (true, (r + 1) % 256)
        else pollRun ((r + 1) % 256) rest

/-! ## Sensor table and per-cycle update
(`SHTW1_SENSOR`, testsystem.c lines 73–82; `UpdateSensorsMeasurements`,
lines 450–522) -/

structure SHTW1_SENSOR where
  stick_serial_number : Nat
  usb_stick_handle : Option Nat
  temperature : ℚ
  humidity : ℚ
  dew_point : ℝ
  name : List Char
  info : List Char

noncomputable def blankSensor : SHTW1_SENSOR :=
  { stick_serial_number := 0, usb_stick_handle := none,
    temperature := 0, humidity := 0, dew_point := 0, name := [], info := [] }

/-- Per-index transport outcomes for one update call: the `WriteI2C` result
and the `ReadI2c` report for the sensor at each table index. -/
structure I2CEnv where
  writeRes : Nat → Int
  reply : Nat → List Nat

/-- Loop body of `UpdateSensorsMeasurements`.  The C iterates indices
`number_of_sensors-1` down to 0; a sensor without a handle is skipped; for
the first sensor with a handle every path returns from inside the loop.
`DP` is re-initialised to 1000 each iteration (the C line `T, RH, DP = 1000;`
initialises only `DP`), so a non-positive humidity stores the 1000 sentinel
as the dew point.  Falling off the loop (no handled sensor) reaches the end
of the non-void function with no return statement, modelled as `none`.  The
third component lists the table indices on which a measurement transaction
was attempted. -/
noncomputable def updateLoop (env : I2CEnv) (table : List SHTW1_SENSOR) :
    Nat → Option Int × List SHTW1_SENSOR × List Nat
  | 0 => (none, table, [])
  | k + 1 =>
      if (table.getD k blankSensor).usb_stick_handle.isSome then
        if env.writeRes k ≠ 3 then (some (-1), table, [k])
        else if ((env.reply k).getD 0 0) &&& 0x80 ≠ 0 then (some (-1), table, [k])
        else if VerifyChecksum [(env.reply k).getD 1 0, (env.reply k).getD 2 0]
            ((env.reply k).getD 3 0) ≠ 0 then
          (some (-2), table, [k])
        else if VerifyChecksum [(env.reply k).getD 4 0, (env.reply k).getD 5 0]
            ((env.reply k).getD 6 0) ≠ 0 then
          (some (-3), table, [k])
        else
          (some 0,
           table.set k
             { table.getD k blankSensor with
                 temperature :=
                   ConvertTemperature
                     ((((env.reply k).getD 1 0) <<< 8 ||| (env.reply k).getD 2 0) % 65536),
                 humidity :=
                   ConvertHumidity
                     ((((env.reply k).getD 4 0) <<< 8 ||| (env.reply k).getD 5 0) % 65536),
                 dew_point :=
                   if (0 : ℚ) < ConvertHumidity
                       ((((env.reply k).getD 4 0) <<< 8 ||| (env.reply k).getD 5 0) % 65536) then
                     dewPointCalc
                       (ConvertTemperature
                         ((((env.reply k).getD 1 0) <<< 8 ||| (env.reply k).getD 2 0) % 65536))
                       (ConvertHumidity
                         ((((env.reply k).getD 4 0) <<< 8 ||| (env.reply k).getD 5 0) % 65536))
                   else 1000 },
           [k])
      else updateLoop env table k

/-- `UpdateSensorsMeasurements(table, n)` with `n` the table length. -/
noncomputable def UpdateSensorsMeasurements (env : I2CEnv) (table : List SHTW1_SENSOR) :
    Option Int × List SHTW1_SENSOR × List Nat :=
  updateLoop env table table.length

/-- A transport on which every write fully acks and every read returns the
all-zero measurement with correct checksums. -/
def twoGoodEnv : I2CEnv :=
  { writeRes := fun _ => 3, reply := fun _ => [0, 0, 0, 129, 0, 0, 129] }

/-- A table of two sensors, both Bound (both hold an adapter handle). -/
noncomputable def twoBoundTable : List SHTW1_SENSOR :=
  [{ stick_serial_number := 6873, usb_stick_handle := some 1,
     temperature := 1000, humidity := 1000, dew_point := 1000,
     name := [], info := [] },
   { stick_serial_number := 6181, usb_stick_handle := some 2,
     temperature := 1000, humidity := 1000, dew_point := 1000,
     name := [], info := [] }]

/-! ## Configuration loading (`LoadConfiguration`, testsystem.c lines 551–653)

Each configuration line is its character content without the trailing
newline; the C `read` returned by `getline` is the content length plus 1.
The C computes `separator_index = strchr(line, '\t') - line`, which for a
missing tab subtracts from the null pointer (the intended negative-index
branch); the model takes the intended branch and reports the line.
`strtol` saturates at `LONG_MAX` / `LONG_MIN` on overflow; `long` is 64-bit
on the program's stated test platform (Scientific Linux 6, x86_64), so a
serial field of 20 to 29 digits — which still fits the 30-byte
`number_string` buffer — is stored as `(uint32_t)LONG_MAX = 4294967295`,
and the model saturates the same way.  Serial fields of 30 or more digits
and names of 30 or more characters overrun the fixed C buffers (undefined
behaviour) and are outside the model's fidelity scope. -/

def SEPARATION_CHAR : Char := '\t'
def MIN_CONF_LINE_LENGTH : Nat := 4
def MAX_CONF_LINE_LENGTH : Nat := 40
def SENSOR_BINDING_LIST_START : List Char := ['s','e','n','s','o','r','s',':']
def BINDING_LIST_STOP : List Char := ['e','n','d','.']

/-- Index of the first occurrence of a character (C `strchr`), if any. -/
def firstIdxOf (c : Char) : List Char → Option Nat
  | [] => none
  | a :: rest => if a = c then some 0 else (firstIdxOf c rest).map (fun i => i + 1)

/-- C `isspace` characters skipped by `strtol`. -/
def isSpaceChar (c : Char) : Bool :=
  c == ' ' || c == '\t' || c == '\n' || c == '\r' ||
    c == Char.ofNat 11 || c == Char.ofNat 12

def digitsToNat (l : List Char) : Nat :=
  l.foldl (fun acc c => acc * 10 + (c.toNat - 48)) 0

-- limits of the 64-bit `long` of the program's stated test platform
def LONG_MAX : Int := 9223372036854775807
def LONG_MIN : Int := -9223372036854775808

/-- Saturation applied by `strtol` when the parsed value falls outside the
range of `long`. -/
def clampLong (v : Int) : Int :=
  if v < LONG_MIN then LONG_MIN else if LONG_MAX < v then LONG_MAX else v

/-- C `strtol(s, NULL, 10)`: skip leading whitespace, optional sign, then the
longest decimal-digit prefix (0 when there is none), saturated at
`LONG_MAX` / `LONG_MIN` on overflow; trailing characters are ignored. -/
def strtol10 (s : List Char) : Int :=
  match s.dropWhile isSpaceChar with
  | '-' :: rest => clampLong (-(digitsToNat (rest.takeWhile Char.isDigit) : Int))
  | '+' :: rest => clampLong (digitsToNat (rest.takeWhile Char.isDigit) : Int)
  | other => clampLong (digitsToNat (other.takeWhile Char.isDigit) : Int)

/-- The C cast `(uint32_t)strtol(...)`. -/
def toUInt32 (v : Int) : Nat := (v % 4294967296).toNat

/-- The `SHTW1_SENSOR` record `LoadConfiguration` builds for an accepted
line: designated initializers plus zero fill (`usb_stick_handle = NULL`). -/
noncomputable def mkConfSensor (nm : List Char) (serial : Nat) : SHTW1_SENSOR :=
  { stick_serial_number := serial, usb_stick_handle := none,
    temperature := 1000, humidity := 1000, dew_point := 1000,
    name := nm, info := ("ERROR: USB Stick not found!").toList }

inductive LineResult where
  | stop
  | report
  | entry (s : SHTW1_SENSOR)

/-- Disposition of one line of the sensors section, following the C branch
structure: length checks on `read = length+1`, the `end.` stop marker, the
three separator-index checks in C order, then the `if (strtol(number_string))`
acceptance test. -/
noncomputable def processLine (l : List Char) : LineResult :=
  if l.length + 1 < MIN_CONF_LINE_LENGTH then .report
  else if MAX_CONF_LINE_LENGTH < l.length + 1 then .report
  else if l = BINDING_LIST_STOP then .stop
  else
    match firstIdxOf SEPARATION_CHAR l with
    | none => .report
    | some si =>
      if l.length - 1 ≤ si then .report
      else if si = 0 then .report
      else if strtol10 (l.drop (si + 1)) ≠ 0 then
        .entry (mkConfSensor (l.take si) (toUInt32 (strtol10 (l.drop (si + 1)))))
      else .report

/-- The reading loop over the sensors section: first component the sensor
entries in order, second the 1-based numbers of the reported lines. -/
noncomputable def processLines : Nat → List (List Char) → List SHTW1_SENSOR × List Nat
  | _, [] => ([], [])
  | k, l :: rest =>
      match processLine l with
      | .stop => ([], [])
      | .report =>
          ((processLines (k + 1) rest).1, (k + 1) :: (processLines (k + 1) rest).2)
      | .entry s =>
          (s :: (processLines (k + 1) rest).1, (processLines (k + 1) rest).2)

/-- The first loop of `LoadConfiguration`: discard lines up to and including
the `sensors:` marker. -/
def skipToSensorsSection : List (List Char) → List (List Char)
  | [] => []
  | l :: rest => if l = SENSOR_BINDING_LIST_START then rest else skipToSensorsSection rest

/-- `LoadConfiguration` over the configuration file's lines. -/
noncomputable def LoadConfiguration (lines : List (List Char)) :
    List SHTW1_SENSOR × List Nat :=
  processLines 0 (skipToSensorsSection lines)

/-- Modelled from the claim: a sensors-section line is well-formed when its
length (newline included) is within [4, 40], it has a tab separator with
non-empty text before it and a non-empty serial field after it, and the
serial field consists of decimal digits. -/
def claimWellFormed (l : List Char) : Bool :=
  decide (MIN_CONF_LINE_LENGTH ≤ l.length + 1) &&
  decide (l.length + 1 ≤ MAX_CONF_LINE_LENGTH) &&
  match firstIdxOf SEPARATION_CHAR l with
  | none => false
  | some si =>
      decide (0 < si) && decide (si + 1 < l.length) &&
        (l.drop (si + 1)).all Char.isDigit

/-! ## Theorems: CRC8 (claim C6) -/

lemma crcStep_matches_spec :
    ∀ c : Nat, c < 256 → crcStep c = crcStepSpec c ∧ crcStepSpec c < 256 := by
  decide

lemma crcStep_iterate_matches_spec (n : Nat) :
    ∀ c : Nat, c < 256 →
      crcStep^[n] c = crcStepSpec^[n] c ∧ crcStepSpec^[n] c < 256 := by
  induction n with
  | zero => intro c hc; exact ⟨rfl, hc⟩
  | succ n ih =>
      intro c hc
      rw [Function.iterate_succ_apply, Function.iterate_succ_apply]
      obtain ⟨he, hlt⟩ := crcStep_matches_spec c hc
      rw [he]
      exact ih (crcStepSpec c) hlt

lemma xor_lt_256 {a b : Nat} (ha : a < 256) (hb : b < 256) : a ^^^ b < 256 := by
  have h1 : a < 2 ^ 8 := by norm_num [ha]
  have h2 : b < 2 ^ 8 := by norm_num [hb]
  have h3 : a ^^^ b < 2 ^ 8 := Nat.xor_lt_two_pow h1 h2
  norm_num at h3
  exact h3

lemma crcFold_matches_spec :
    ∀ (data : List Nat) (c : Nat), c < 256 → (∀ b ∈ data, b < 256) →
      data.foldl crcByteStep c = data.foldl (fun x b => crcStepSpec^[8] (x ^^^ b)) c := by
  intro data
  induction data with
  | nil => intro c _ _; simp only [List.foldl_nil]
  | cons b rest ih =>
      intro c hc hb
      have hblt : b < 256 := hb b (List.mem_cons_self b rest)
      have hxor : c ^^^ b < 256 := xor_lt_256 hc hblt
      have hstep : crcByteStep c b = crcStepSpec^[8] (c ^^^ b) := by
        unfold crcByteStep
        rw [Nat.mod_eq_of_lt hxor]
        exact (crcStep_iterate_matches_spec 8 (c ^^^ b) hxor).1
      have hnext : crcStepSpec^[8] (c ^^^ b) < 256 :=
        (crcStep_iterate_matches_spec 8 (c ^^^ b) hxor).2
      simp only [List.foldl_cons, hstep]
      exact ih _ hnext (fun x hx => hb x (List.mem_cons_of_mem b hx))

/-- C6: `VerifyChecksum` implements the reference CRC-8 (polynomial 0x131,
initial value 0xFF, MSB-first XOR-on-overflow shifting, one byte at a time,
8 shift steps per byte): on every byte span the computed checksum equals the
reference value, verifying a span against its own computed checksum succeeds
(returns 0), and verifying against any differing claimed checksum fails
(returns -2). -/
theorem crc8_meets_reference (data : List Nat) (c : Nat)
    (hb : ∀ b ∈ data, b < 256) (hc : c ≠ crc8 data) :
    crc8 data = crc8_spec data ∧
    VerifyChecksum data (crc8 data) = 0 ∧
    VerifyChecksum data c = -2 := by
  refine ⟨?_, ?_, ?_⟩
  · unfold crc8 crc8_spec
    exact crcFold_matches_spec data 0xFF (by norm_num) hb
  · unfold VerifyChecksum
    simp
  · unfold VerifyChecksum
    rw [if_pos (Ne.symm hc)]

/-- Witness for C6 at the Sensirion datasheet example span `[0xBE, 0xEF]`
(whose CRC is 0x92) and the differing claimed checksum 0. -/
theorem crc8_meets_reference_witness :
    (∀ b ∈ [0xBE, 0xEF], b < 256) ∧ (0 : Nat) ≠ crc8 [0xBE, 0xEF] ∧
      (crc8 [0xBE, 0xEF] = crc8_spec [0xBE, 0xEF] ∧
       VerifyChecksum [0xBE, 0xEF] (crc8 [0xBE, 0xEF]) = 0 ∧
       VerifyChecksum [0xBE, 0xEF] 0 = -2) :=
  ⟨by decide, by decide, crc8_meets_reference [0xBE, 0xEF] 0 (by decide) (by decide)⟩

/-! ## Theorems: unit conversions (claim C8) -/

/-- C8 counterexample: at the `u16` domain edge 65536 the temperature
conversion `175 * raw / 65536 - 45` evaluates to 130, not to the claimed
175 (175 is the span of the scale, whose endpoints are -45 and 130). -/
theorem convertTemperature_edge_is_130 :
    ConvertTemperature 65536 = 130 ∧ (130 : ℚ) ≠ 175 := by
  constructor
  · norm_num [ConvertTemperature]
  · norm_num

/-- C8 (amended): the temperature conversion is `175 * raw / 65536 - 45` and
the humidity conversion is `100 * raw / 65536`; at the edges,
`temperature 0 = -45`, `humidity 0 = 0`, `temperature 65536 = 130` and
`humidity 65536 = 100` (65536 being the domain edge of the `u16` argument). -/
theorem conversions_formula_and_edges :
    (∀ raw : Nat, ConvertTemperature raw = 175 * (raw : ℚ) / 65536 - 45 ∧
                   ConvertHumidity raw = 100 * (raw : ℚ) / 65536) ∧
    ConvertTemperature 0 = -45 ∧ ConvertTemperature 65536 = 130 ∧
    ConvertHumidity 0 = 0 ∧ ConvertHumidity 65536 = 100 := by
  refine ⟨fun raw => ⟨rfl, rfl⟩, ?_, ?_, ?_, ?_⟩ <;>
    norm_num [ConvertTemperature, ConvertHumidity]

/-! ## Theorems: dew point (claim C7) -/

/-- C7: the dew point is undefined (none) when the humidity is non-positive;
otherwise the coefficients `(243.12, 17.62)` are selected for positive
temperature and `(272.62, 22.46)` otherwise, and the dew point equals
`T_coef * (ln(rh/100) + m*t/(T_coef+t)) / (m - ln(rh/100) - m*t/(T_coef+t))`. -/
theorem dew_point_matches_spec (temp rh : ℚ) :
    dew_point temp rh = dew_point_spec temp rh := by
  unfold dew_point dew_point_spec dewPointCalc T_PLUS M_PLUS T_MINUS M_MINUS
  rcases le_or_lt rh 0 with h | h
  · rw [if_neg (not_lt.mpr h), if_pos h]
  · rw [if_pos h, if_neg (not_le.mpr h)]

/-! ## Theorems: measurement transaction (claims C4, C5, C10) -/

/-- C4: when the temperature word fails CRC, `GetMeasurements` returns the
temperature-checksum error -2, writes none of the three outputs, and the only
step executed is the temperature CRC check — no humidity CRC check, no
conversion, no dew point. -/
theorem measure_temp_checksum_error (writeRes : Int) (reply : List Nat) (st : MeasState)
    (hw : writeRes = 3)
    (hack : (reply.getD 0 0) &&& 0x80 = 0)
    (hcrc : VerifyChecksum [reply.getD 1 0, reply.getD 2 0] (reply.getD 3 0) ≠ 0) :
    GetMeasurements writeRes reply st = (-2, st, [MEvent.tempCrc]) := by
  subst hw
  unfold GetMeasurements
  rw [if_neg (by norm_num), if_neg (fun hne => hne hack), if_pos hcrc]

/-- Witness for C4: a reply whose temperature bytes `[1, 2]` carry the wrong
checksum 3 (the CRC of `[1, 2]` is 23). -/
theorem measure_temp_checksum_error_witness :
    (3 : Int) = 3 ∧
    ((([0, 1, 2, 3, 0, 0, 0] : List Nat).getD 0 0) &&& 0x80 = 0) ∧
    VerifyChecksum [([0, 1, 2, 3, 0, 0, 0] : List Nat).getD 1 0,
                    ([0, 1, 2, 3, 0, 0, 0] : List Nat).getD 2 0]
        (([0, 1, 2, 3, 0, 0, 0] : List Nat).getD 3 0) ≠ 0 ∧
    GetMeasurements 3 [0, 1, 2, 3, 0, 0, 0] ⟨0, 0, 0⟩ = (-2, ⟨0, 0, 0⟩, [MEvent.tempCrc]) :=
  ⟨rfl, by decide, by decide,
   measure_temp_checksum_error 3 [0, 1, 2, 3, 0, 0, 0] ⟨0, 0, 0⟩ rfl (by decide) (by decide)⟩

/-- C5: when the temperature CRC passes but the humidity word fails CRC,
`GetMeasurements` returns the humidity-checksum error -3 while the converted
temperature has already been written to the caller; humidity and dew point
keep their previous values and the humidity conversion is never executed. -/
theorem measure_humidity_checksum_error (writeRes : Int) (reply : List Nat) (st : MeasState)
    (hw : writeRes = 3)
    (hack : (reply.getD 0 0) &&& 0x80 = 0)
    (hcrcT : VerifyChecksum [reply.getD 1 0, reply.getD 2 0] (reply.getD 3 0) = 0)
    (hcrcH : VerifyChecksum [reply.getD 4 0, reply.getD 5 0] (reply.getD 6 0) ≠ 0) :
    GetMeasurements writeRes reply st =
      (-3,
       { st with temperature :=
           ConvertTemperature ((((reply.getD 1 0) <<< 8) ||| reply.getD 2 0) % 65536) },
       [MEvent.tempCrc, MEvent.tempConv, MEvent.humCrc]) := by
  subst hw
  unfold GetMeasurements
  rw [if_neg (by norm_num), if_neg (fun hne => hne hack), if_neg (fun hne => hne hcrcT),
      if_pos hcrcH]

/-- Witness for C5: temperature bytes `[0, 0]` with their correct checksum 129,
humidity bytes `[0, 0]` with the wrong checksum 0. -/
theorem measure_humidity_checksum_error_witness :
    VerifyChecksum [0, 0] 129 = 0 ∧ VerifyChecksum [0, 0] 0 ≠ 0 ∧
    GetMeasurements 3 [0, 0, 0, 129, 0, 0, 0] ⟨7, 8, 9⟩ =
      (-3, { temperature := ConvertTemperature 0, humidity := 8, dew_point := 9 },
       [MEvent.tempCrc, MEvent.tempConv, MEvent.humCrc]) :=
  ⟨by decide, by decide,
   measure_humidity_checksum_error 3 [0, 0, 0, 129, 0, 0, 0] ⟨7, 8, 9⟩ rfl
     (by decide) (by decide) (by decide)⟩

/-- C10: when both CRC checks pass but the converted humidity is non-positive,
`GetMeasurements` returns success 0 and writes the temperature and humidity
outputs, but never writes the dew-point output: the caller's previous
dew-point value persists unchanged (and no none/invalid marker exists in the
interface to record its absence). -/
theorem measure_success_nonpositive_humidity (writeRes : Int) (reply : List Nat) (st : MeasState)
    (hw : writeRes = 3)
    (hack : (reply.getD 0 0) &&& 0x80 = 0)
    (hcrcT : VerifyChecksum [reply.getD 1 0, reply.getD 2 0] (reply.getD 3 0) = 0)
    (hcrcH : VerifyChecksum [reply.getD 4 0, reply.getD 5 0] (reply.getD 6 0) = 0)
    (hh : ConvertHumidity ((((reply.getD 4 0) <<< 8) ||| reply.getD 5 0) % 65536) ≤ 0) :
    GetMeasurements writeRes reply st =
      (0,
       { st with
           temperature :=
             ConvertTemperature ((((reply.getD 1 0) <<< 8) ||| reply.getD 2 0) % 65536),
           humidity :=
             ConvertHumidity ((((reply.getD 4 0) <<< 8) ||| reply.getD 5 0) % 65536) },
       [MEvent.tempCrc, MEvent.tempConv, MEvent.humCrc, MEvent.humConv]) ∧
    (GetMeasurements writeRes reply st).2.1.dew_point = st.dew_point := by
  subst hw
  have h1 : GetMeasurements 3 reply st =
      (0,
       { st with
           temperature :=
             ConvertTemperature ((((reply.getD 1 0) <<< 8) ||| reply.getD 2 0) % 65536),
           humidity :=
             ConvertHumidity ((((reply.getD 4 0) <<< 8) ||| reply.getD 5 0) % 65536) },
       [MEvent.tempCrc, MEvent.tempConv, MEvent.humCrc, MEvent.humConv]) := by
    unfold GetMeasurements
    rw [if_neg (by norm_num), if_neg (fun hne => hne hack), if_neg (fun hne => hne hcrcT),
        if_neg (fun hne => hne hcrcH), if_neg (not_lt.mpr hh)]
  exact ⟨h1, by rw [h1]⟩

/-- Witness for C10: both words are `[0, 0]` with correct checksum 129; the
converted humidity is 0, so the previous dew-point value 9 persists. -/
theorem measure_success_nonpositive_humidity_witness :
    VerifyChecksum [0, 0] 129 = 0 ∧
    ConvertHumidity 0 ≤ 0 ∧
    (GetMeasurements 3 [0, 0, 0, 129, 0, 0, 129] ⟨7, 8, 9⟩ =
       (0, { temperature := ConvertTemperature 0, humidity := ConvertHumidity 0,
             dew_point := 9 },
        [MEvent.tempCrc, MEvent.tempConv, MEvent.humCrc, MEvent.humConv]) ∧
     (GetMeasurements 3 [0, 0, 0, 129, 0, 0, 129] ⟨7, 8, 9⟩).2.1.dew_point = (9 : ℝ)) :=
  ⟨by decide, by norm_num [ConvertHumidity],
   measure_success_nonpositive_humidity 3 [0, 0, 0, 129, 0, 0, 129] ⟨7, 8, 9⟩ rfl
     (by decide) (by decide) (by decide)
     (show ConvertHumidity 0 ≤ 0 by norm_num [ConvertHumidity])⟩

/-! ## Theorems: polling retry loop (claims C2, C3) -/

/-- C2 counterexample: five consecutive transport ack failures (update result
-1) starting from a reset counter terminate the whole process (flag `true`)
— the loop does not disconnect one sensor and continue polling the rest. -/
theorem polling_five_ack_failures_terminate_process :
    pollRun 0 [-1, -1, -1, -1, -1] = (true, 5) := by decide

/-- C2 (amended): the consecutive-failure counter is a single process-wide
`retry_counter` shared by all sensors; after five consecutive failing cycles
from a reset counter it reaches the retry limit 5 and the whole process
terminates with an error (any further cycles are never executed) — there is
no per-sensor Disconnected transition. -/
theorem polling_reaches_limit_terminates (a b c d e : Int) (rest : List Int)
    (ha : a ≠ 0) (hb : b ≠ 0) (hc : c ≠ 0) (hd : d ≠ 0) (he : e ≠ 0) :
    pollRun 0 (a :: b :: c :: d :: e :: rest) = (true, 5) := by
  simp [pollRun, ha, hb, hc, hd, he, I2C_RETRY_LIMIT]

/-- Witness for the amended C2: five NotAcknowledged cycles followed by a
would-be successful cycle that is never reached. -/
theorem polling_reaches_limit_terminates_witness :
    ((-1 : Int) ≠ 0) ∧ pollRun 0 [-1, -1, -1, -1, -1, 0] = (true, 5) :=
  ⟨by decide,
   polling_reaches_limit_terminates (-1) (-1) (-1) (-1) (-1) [0]
     (by decide) (by decide) (by decide) (by decide) (by decide)⟩

/-- C3 counterexample: a temperature-checksum failure (update result -2)
increments the shared retry counter (0 becomes 1, where the claim requires it
to stay 0); with the counter at 4, a checksum failure even terminates the
process. -/
theorem checksum_failure_increments_counter :
    (pollRun 0 [(-2 : Int)]).2 = 1 ∧ pollRun 4 [(-2 : Int)] = (true, 5) := by
  decide

/-- C3 (amended): the retry loop treats a checksum failure (update result -2
or -3) exactly like a transport ack failure (-1): any nonzero result
increments the single shared counter and counts toward the limit of 5;
the counter is reset only by a fully successful cycle. -/
theorem checksum_failure_treated_as_ack_failure (r : Nat) (rest : List Int) :
    pollRun r ((-2) :: rest) = pollRun r ((-1) :: rest) ∧
    pollRun r ((-3) :: rest) = pollRun r ((-1) :: rest) := by
  constructor <;> simp [pollRun]

/-! ## Theorems: per-cycle update (claim C1) -/

/-- C1: with a table of two Bound sensors and a transport on which every
transaction succeeds with valid CRCs, one `UpdateSensorsMeasurements` call
attempts a measurement only at index 1 — the first sensor the descending
loop processes — and returns 0; the other Bound sensor (index 0) is never
measured in the cycle, exhibiting the return-after-first-sensor defect. -/
theorem update_measures_only_first_bound_sensor :
    (UpdateSensorsMeasurements twoGoodEnv twoBoundTable).2.2 = [1] ∧
    (UpdateSensorsMeasurements twoGoodEnv twoBoundTable).1 = some 0 ∧
    (twoBoundTable.countP fun s => s.usb_stick_handle.isSome) = 2 := by
  refine ⟨?_, ?_, ?_⟩ <;> decide

/-! ## Theorems: configuration loading (claim C9) -/

/-- C9 counterexample: the well-formed line `name<TAB>0` (length in range,
single tab, non-empty name, decimal serial 0) is reported and yields no
entry, because the code tests the serial with `if (strtol(...))`, which is 0
both for garbage and for the valid decimal `0`; conversely the malformed
line `a<TAB>12x` (non-decimal serial field) is accepted without any report,
yielding an entry with serial 12; and the well-formed line `a<TAB>` followed
by twenty `9`s (all-decimal serial, still within the 30-byte `number_string`
buffer) yields an entry whose serial is `(uint32_t)LONG_MAX = 4294967295`,
not its written decimal value. -/
theorem loadConfiguration_strtol_validation_defect :
    claimWellFormed ['n','a','m','e','\t','0'] = true ∧
    (processLines 0 [['n','a','m','e','\t','0']]).1.length = 0 ∧
    (processLines 0 [['n','a','m','e','\t','0']]).2 = [1] ∧
    claimWellFormed ['a','\t','1','2','x'] = false ∧
    ((processLines 0 [['a','\t','1','2','x']]).1.map fun s => (s.name, s.stick_serial_number))
      = [(['a'], 12)] ∧
    (processLines 0 [['a','\t','1','2','x']]).2 = [] ∧
    claimWellFormed
        ['a','\t','9','9','9','9','9','9','9','9','9','9','9','9','9','9','9','9','9','9','9','9']
      = true ∧
    strtol10 ['9','9','9','9','9','9','9','9','9','9','9','9','9','9','9','9','9','9','9','9']
      = LONG_MAX ∧
    ((processLines 0
        [['a','\t','9','9','9','9','9','9','9','9','9','9','9','9','9','9','9','9','9','9','9','9']]).1.map
      fun s => s.stick_serial_number) = [4294967295] :=
  ⟨rfl, rfl, rfl, rfl, rfl, rfl, rfl, rfl, rfl⟩

/-- C9 (amended): every malformed sensors-section line — too short, too
long, missing tab, tab at either edge — is reported and skipped, and a
reported line is never fatal: the remaining lines are parsed exactly as they
would be alone; a length- and tab-valid line yields exactly one entry (named
by the text before the tab, serial the `strtol` value cast to `uint32`)
exactly when its serial field `strtol`-parses to a nonzero value — so the
valid decimal serial `0` is reported and skipped, while trailing garbage
after a nonzero decimal prefix is accepted. -/
theorem loadConfiguration_line_handling (l : List Char) (k : Nat)
    (rest : List (List Char)) (si : Nat) :
    (processLine l = .report →
       processLines k (l :: rest)
         = ((processLines (k + 1) rest).1, (k + 1) :: (processLines (k + 1) rest).2)) ∧
    (∀ s, processLine l = .entry s →
       processLines k (l :: rest)
         = (s :: (processLines (k + 1) rest).1, (processLines (k + 1) rest).2)) ∧
    (l.length + 1 < 4 ∨ 40 < l.length + 1 → processLine l = .report) ∧
    (¬ l.length + 1 < 4 → ¬ 40 < l.length + 1 → l ≠ BINDING_LIST_STOP →
       firstIdxOf SEPARATION_CHAR l = none → processLine l = .report) ∧
    (¬ l.length + 1 < 4 → ¬ 40 < l.length + 1 → l ≠ BINDING_LIST_STOP →
       firstIdxOf SEPARATION_CHAR l = some si →
       (l.length - 1 ≤ si ∨ si = 0 → processLine l = .report) ∧
       (¬ l.length - 1 ≤ si → si ≠ 0 →
         (strtol10 (l.drop (si + 1)) ≠ 0 →
            processLine l
              = .entry (mkConfSensor (l.take si) (toUInt32 (strtol10 (l.drop (si + 1)))))) ∧
         (strtol10 (l.drop (si + 1)) = 0 → processLine l = .report))) := by
  refine ⟨?_, ?_, ?_, ?_, ?_⟩
  · intro h
    simp [processLines, h]
  · intro s h
    simp [processLines, h]
  · intro h
    rcases h with h | h
    · simp [processLine, MIN_CONF_LINE_LENGTH, h]
    · simp [processLine, MIN_CONF_LINE_LENGTH, MAX_CONF_LINE_LENGTH, h]
  · intro h1 h2 h3 h4
    simp [processLine, MIN_CONF_LINE_LENGTH, MAX_CONF_LINE_LENGTH, h1, h2, h3, h4]
  · intro h1 h2 h3 h4
    constructor
    · intro h5
      by_cases hlen : l.length - 1 ≤ si
      · simp [processLine, MIN_CONF_LINE_LENGTH, MAX_CONF_LINE_LENGTH,
              h1, h2, h3, h4, hlen]
      · rcases h5 with h5 | h5
        · exact absurd h5 hlen
        · simp [processLine, MIN_CONF_LINE_LENGTH, MAX_CONF_LINE_LENGTH,
                h1, h2, h3, h4, hlen, h5]
    · intro h5 h6
      constructor
      · intro h7
        simp [processLine, MIN_CONF_LINE_LENGTH, MAX_CONF_LINE_LENGTH,
              h1, h2, h3, h4, h5, h6, h7]
      · intro h7
        simp [processLine, MIN_CONF_LINE_LENGTH, MAX_CONF_LINE_LENGTH,
              h1, h2, h3, h4, h5, h6, h7]

/-- Witness for the amended C9 at the line `a<TAB>1` in a one-line section. -/
theorem loadConfiguration_line_handling_witness :
    strtol10 ['1'] ≠ 0 ∧
    processLine ['a','\t','1']
      = LineResult.entry (mkConfSensor ['a'] (toUInt32 (strtol10 ['1']))) :=
  ⟨by decide,
   (((loadConfiguration_line_handling ['a','\t','1'] 0 [] 1).2.2.2.2
       (by decide) (by decide) (by decide) (by decide)).2
     (by decide) (by decide)).1 (by decide)⟩
